import Mathlib

/-!
# SEO Content Intelligence Tool — verification of the analysis pipeline

Shallow embedding of the original logic in `app.py`:

* `is_valid_url` (app.py lines 55-60)
* `extract_text_from_url` (app.py lines 62-71) and the single-content URL
  branch that classifies its result (app.py lines 117-128)
* `extract_text_from_file` (app.py lines 73-82)
* `analyze_text` (app.py lines 84-103)
* the competitor-comparison flow (app.py lines 185-195)

Python strings are modelled as lists of characters (`Str`), Python floats as
rationals, and exceptions as `Except`.  The external models (spaCy's `nlp`,
KeyBERT's `extract_keywords`, textstat's two formulas, the HTTP fetch and the
file contents) are oracle parameters gathered in `Env`; everything the
repository itself computes is translated from the source.
-/

/-- Python `str` modelled as a list of unicode code points. -/
abbrev Str := List Char

/-- Python whitespace for `str.split()` (ASCII subset; `\x0b` is vertical tab,
`\x0c` is form feed). -/
def pyIsSpace (c : Char) : Bool :=
  c = ' ' || c = '\t' || c = '\n' || c = '\x0d' || c = '\x0b' || c = '\x0c'

/-- Python `str.split()` with no separator: split on runs of whitespace,
discarding empty tokens.  The accumulator holds the current token reversed. -/
def pySplitWsAux : List Char → List Char → List Str
  | [], acc => if acc = [] then [] else [acc.reverse]
  | c :: cs, acc =>
      if pyIsSpace c then
        if acc = [] then pySplitWsAux cs [] else acc.reverse :: pySplitWsAux cs []
      else pySplitWsAux cs (c :: acc)

/-- Python `str.split()` (whitespace tokenization). -/
def pySplitWs (s : Str) : List Str := pySplitWsAux s []

/-- Python `str.split(sep)` for a one-character separator: keeps empty pieces
and never returns the empty list (`"".split(".") == [""]`). -/
def pySplitSep (sep : Char) : Str → List Str
  | [] => [[]]
  | c :: cs =>
      if c = sep then [] :: pySplitSep sep cs
      else
        match pySplitSep sep cs with
        | [] => [[c]]
        | t :: ts => (c :: t) :: ts

/-- Python `str.lower()` (ASCII case mapping, as all the claims exercise). -/
def pyLower (s : Str) : Str := s.map Char.toLower

/-- Python `str.strip()`: drop whitespace from both ends. -/
def pyStrip (s : Str) : Str :=
  ((s.dropWhile pyIsSpace).reverse.dropWhile pyIsSpace).reverse

/-- Python `round(x)` on a rational: round half to even (banker's rounding). -/
def pyRoundInt (q : ℚ) : ℤ :=
  if q - ⌊q⌋ < 1/2 then ⌊q⌋
  else if (1:ℚ)/2 < q - ⌊q⌋ then ⌊q⌋ + 1
  else if ⌊q⌋ % 2 = 0 then ⌊q⌋ else ⌊q⌋ + 1

/-- Python `round(x, 2)` on a rational. -/
def round2 (q : ℚ) : ℚ := (pyRoundInt (q * 100) : ℚ) / 100

/-! ## URL parsing (`urllib.parse.urlparse`, as used by `is_valid_url`)

Only the `scheme` and `netloc` components matter to `is_valid_url`.  The
model follows CPython's `urlsplit`: unsafe bytes (tab, CR, LF) are removed,
leading/trailing C0-control-or-space characters are stripped, the scheme is
the longest `[A-Za-z][A-Za-z0-9+-.]*` before a colon, and the netloc is
present only after a literal `//`.  A netloc with an unmatched square bracket
raises `ValueError`, modelled as `none`. -/

/-- Characters CPython's `urlsplit` removes anywhere in the URL. -/
def urlUnsafeChar (c : Char) : Bool := c = '\t' || c = '\x0d' || c = '\n'

/-- C0 control or space: stripped from both ends by `urlsplit`. -/
def c0OrSpace (c : Char) : Bool := c.val ≤ 32

/-- Characters allowed in a URL scheme after the first letter. -/
def schemeChar (c : Char) : Bool :=
  c.isAlpha || c.isDigit || c = '+' || c = '-' || c = '.'

/-- The scheme/netloc fields of a parsed URL. -/
structure UrlParts where
  scheme : Str
  netloc : Str
deriving DecidableEq

/-- Split off the scheme: `(scheme, rest)`; empty scheme when absent. -/
def splitScheme (u : Str) : Str × Str :=
  match u.findIdx? (· = ':') with
  | none => ([], u)
  | some i =>
      if 0 < i ∧ (u.take i).all schemeChar ∧ (u.headI).isAlpha then
        (pyLower (u.take i), u.drop (i + 1))
      else ([], u)

/-- Extract the netloc after a leading `//`: everything up to `/`, `?` or `#`. -/
def splitNetloc (rest : Str) : Str :=
  match rest with
  | '/' :: '/' :: r => r.takeWhile (fun c => ¬(c = '/' ∨ c = '?' ∨ c = '#'))
  | _ => []

/-- `urllib.parse.urlparse`, restricted to the fields `is_valid_url` reads.
`none` models the `ValueError` raised on an unmatched bracket in the netloc. -/
def pyUrlparse (url : Str) : Option UrlParts :=
  let u := (url.filter (fun c => ¬ urlUnsafeChar c))
  let u := ((u.dropWhile c0OrSpace).reverse.dropWhile c0OrSpace).reverse
  let (scheme, rest) := splitScheme u
  let netloc := splitNetloc rest
  if (netloc.contains '[' ∧ ¬ netloc.contains ']') ∨
     (netloc.contains ']' ∧ ¬ netloc.contains '[') then none
  else some ⟨scheme, netloc⟩

/-- `is_valid_url` (app.py lines 55-60): `all([result.scheme, result.netloc])`
with any parsing exception caught and turned into `False`. -/
def is_valid_url (url : Str) : Bool :=
  match pyUrlparse url with
  | none => false
  | some r => ¬ r.scheme.isEmpty ∧ ¬ r.netloc.isEmpty

example : is_valid_url "https://example.com/a".data = true := by decide
example : is_valid_url "example.com".data = false := by decide
example : is_valid_url "ftp://".data = false := by decide

/-! ## Text acquirer -/

/-- Outcome of the HTTP GET + HTML parse that `extract_text_from_url`
delegates to `requests`/`BeautifulSoup`: on success, the texts of the page's
`<p>` elements; on failure, the exception message. -/
abbrev FetchResult := Except Str (List Str)

/-- `extract_text_from_url` (app.py lines 62-71): join the paragraph texts
longer than 40 characters with newlines; on any exception return the in-band
string `"ERROR: " + str(e)`. -/
def extract_text_from_url (fetch : FetchResult) : Str :=
  match fetch with
  | .error e => "ERROR: ".data ++ e
  | .ok paras => List.intercalate ['\n'] (paras.filter (fun p => 40 < p.length))

/-- How the single-content URL branch reacts to a fetched string. -/
inductive FetchOutcome where
  | fetchFailure
  | insufficient
  | content (t : Str)
deriving DecidableEq

/-- The URL branch of the single-content tab (app.py lines 122-128):
`fetched.startswith("ERROR")` means failure, a length under 100 means an
insufficient-content warning, anything else is accepted as content. -/
def tab1Classify (fetched : Str) : FetchOutcome :=
  if "ERROR".data.isPrefixOf fetched then .fetchFailure
  else if fetched.length < 100 then .insufficient
  else .content fetched

/-- An uploaded file as `extract_text_from_file` observes it: its name, the
result of `uploaded_file.read().decode("utf-8")`, and the paragraph texts of
`Document(uploaded_file)` — each an `Except` because decoding or parsing may
raise. -/
structure UploadedFile where
  name : Str
  decodeUtf8 : Except Str Str
  docxParas : Except Str (List Str)

/-- `extract_text_from_file` (app.py lines 73-82): dispatch on the file-name
extension; `.txt` is decoded as UTF-8, `.docx` paragraphs are joined with
newlines, anything else falls through to `return ""`; an exception in either
branch is caught (`st.error`) and also falls through to `return ""`. -/
def extract_text_from_file (f : UploadedFile) : Str :=
  if ".txt".data.isSuffixOf f.name then
    match f.decodeUtf8 with
    | .ok s => s
    | .error _ => []
  else if ".docx".data.isSuffixOf f.name then
    match f.docxParas with
    | .ok ps => List.intercalate ['\n'] ps
    | .error _ => []
  else []

/-! ## Analysis pipeline -/

/-- What one call of spaCy's `nlp` yields, as `analyze_text` reads it: the
entity span texts (`doc.ents`) and the noun-chunk texts (`doc.noun_chunks`). -/
structure NlpDoc where
  ents : List Str
  nounChunks : List Str

/-- The process-wide models and formulas `analyze_text` calls out to.
`nlp = none` models the spaCy model having failed to load (`nlp = None`,
app.py line 23), `kw = none` models `kw_model = None` (app.py lines 43/46);
calling either raises.  The inner `Except`s model the call itself raising.
`fre`/`fkg` are textstat's `flesch_reading_ease`/`flesch_kincaid_grade`. -/
structure Env where
  nlp : Option (Str → Except Str NlpDoc)
  kw : Option (Str → Except Str (List (Str × ℚ)))
  fre : Str → Except Str ℚ
  fkg : Str → Except Str ℚ

/-- Readability fields: a number, or the string sentinel `"N/A"`. -/
inductive RVal where
  | num (q : ℚ)
  | na
deriving DecidableEq

/-- The 8-tuple `analyze_text` returns. -/
structure AnalysisResult where
  keywords : List (Str × ℚ)
  density : List (Str × ℚ)
  entities : List Str
  nounChunks : List Str
  metaTitle : Str
  metaDescription : Str
  readingScore : RVal
  readingGrade : RVal
deriving DecidableEq

/-- The all-empty/"N/A" result of `analyze_text`'s `except` branch
(app.py line 103). -/
def emptyResult : AnalysisResult :=
  ⟨[], [], [], [], "N/A".data, "N/A".data, RVal.na, RVal.na⟩

/-- One keyword's density entry (app.py line 99):
`round(word_list.count(kw.lower()) / len(word_list) * 100, 2)`; dividing by a
zero token count raises `ZeroDivisionError`. -/
def densityEntry (wordList : List Str) (kw : Str) : Except Str (Str × ℚ) :=
  if wordList.length = 0 then .error "ZeroDivisionError".data
  else .ok (kw, round2 ((wordList.count (pyLower kw) : ℚ) / (wordList.length : ℚ) * 100))

/-- app.py line 88: `list(set(ent.text for ent in doc.ents if
len(ent.text.strip()) > 1))`; Python's arbitrary set order is modelled by
`List.dedup` (first occurrences kept). -/
def entitiesOf (doc : NlpDoc) : List Str :=
  (doc.ents.filter (fun e => 1 < (pyStrip e).length)).dedup

/-- app.py line 89: `list(set(chunk.text.lower() for chunk in doc.noun_chunks
if len(chunk.text.strip()) > 3))`. -/
def chunksOf (doc : NlpDoc) : List Str :=
  ((doc.nounChunks.filter (fun c => 3 < (pyStrip c).length)).map pyLower).dedup

/-- app.py lines 90-91: `sentences = input_text.split(".")`;
`meta_title = sentences[0][:60] + "..." if sentences else "N/A"`. -/
def metaTitleOf (t : Str) : Str :=
  match pySplitSep '.' t with
  | [] => "N/A".data
  | s :: _ => s.take 60 ++ "...".data

/-- app.py line 92: `meta_description = input_text.strip()[:160] + "..."`. -/
def metaDescriptionOf (t : Str) : Str :=
  (pyStrip t).take 160 ++ "...".data

/-- app.py lines 93-97: the inner `try` around the two textstat calls; on any
exception both fields become the `"N/A"` sentinel. -/
def readabilityOf (env : Env) (t : Str) : RVal × RVal :=
  match env.fre t with
  | .error _ => (RVal.na, RVal.na)
  | .ok s =>
      match env.fkg t with
      | .error _ => (RVal.na, RVal.na)
      | .ok g => (RVal.num s, RVal.num g)

/-- The `try` body of `analyze_text` (app.py lines 85-100); `.error` is any
exception reaching the outer handler. -/
def analyzeBody (env : Env) (t : Str) : Except Str AnalysisResult := do
  let nlpF ← match env.nlp with
    | none => Except.error "TypeError: NoneType object is not callable".data
    | some f => Except.ok f
  let doc ← nlpF t
  let kwF ← match env.kw with
    | none => Except.error "AttributeError: NoneType has no attribute extract_keywords".data
    | some f => Except.ok f
  let keywords ← kwF t
  let wordList := pySplitWs (pyLower t)
  let density ← (keywords.map Prod.fst).mapM (densityEntry wordList)
  return ⟨keywords, density, entitiesOf doc, chunksOf doc, metaTitleOf t,
          metaDescriptionOf t, (readabilityOf env t).1, (readabilityOf env t).2⟩

/-- `analyze_text` (app.py lines 84-103): the body, with every exception
caught and converted to the all-empty result. -/
def analyze_text (env : Env) (t : Str) : AnalysisResult :=
  match analyzeBody env t with
  | .ok r => r
  | .error _ => emptyResult

/-- The competitor-comparison flow (app.py lines 191-195): both fetch results
are passed to `analyze_text` as-is, with no `startswith("ERROR")` or length
check in between. -/
def compareCompetitors (env : Env) (fetch1 fetch2 : FetchResult) :
    AnalysisResult × AnalysisResult :=
  (analyze_text env (extract_text_from_url fetch1),
   analyze_text env (extract_text_from_url fetch2))

/-! ## Supporting lemmas -/

/-- `str.split(sep)` never returns the empty list. -/
lemma pySplitSep_ne_nil (sep : Char) (s : Str) : pySplitSep sep s ≠ [] := by
  induction s with
  | nil => simp [pySplitSep]
  | cons c cs ih =>
      simp only [pySplitSep]
      split
      · simp
      · cases h : pySplitSep sep cs <;> simp

/-- `metaTitleOf` always takes the first-sentence branch. -/
lemma metaTitleOf_eq (t : Str) :
    metaTitleOf t = (pySplitSep '.' t).headI.take 60 ++ "...".data := by
  unfold metaTitleOf
  cases h : pySplitSep '.' t with
  | nil => exact absurd h (pySplitSep_ne_nil '.' t)
  | cons s rest => simp

/-- With a non-empty token list the density comprehension never raises. -/
lemma densityList_ok (wl : List Str) (hwl : wl ≠ []) (ks : List Str) :
    ks.mapM (densityEntry wl) =
      .ok (ks.map fun k =>
        (k, round2 ((wl.count (pyLower k) : ℚ) / (wl.length : ℚ) * 100))) := by
  have hlen : wl.length ≠ 0 := by simpa using hwl
  induction ks with
  | nil => rfl
  | cons k ks ih =>
      simp only [List.mapM_cons, densityEntry, hlen, if_false, List.map_cons, ih]
      rfl

/-- With zero tokens and at least one keyword the comprehension raises. -/
lemma densityList_zero (ks : List Str) (h : ks ≠ []) :
    ks.mapM (densityEntry []) = .error "ZeroDivisionError".data := by
  cases ks with
  | nil => contradiction
  | cons k ks => simp only [List.mapM_cons, densityEntry]; rfl

/-- `analyzeBody` when the spaCy model failed to load. -/
lemma analyzeBody_nlp_none (env : Env) (t : Str) (h : env.nlp = none) :
    analyzeBody env t = .error "TypeError: NoneType object is not callable".data := by
  simp [analyzeBody, h, bind, Except.bind]

/-- `analyzeBody` once all four model calls are known to succeed. -/
lemma analyzeBody_eq (env : Env) (t : Str) (f : Str → Except Str NlpDoc)
    (doc : NlpDoc) (g : Str → Except Str (List (Str × ℚ))) (kws : List (Str × ℚ))
    (h1 : env.nlp = some f) (h2 : f t = .ok doc)
    (h3 : env.kw = some g) (h4 : g t = .ok kws) :
    analyzeBody env t =
      ((kws.map Prod.fst).mapM (densityEntry (pySplitWs (pyLower t)))).bind
        (fun ds => .ok ⟨kws, ds, entitiesOf doc, chunksOf doc, metaTitleOf t,
          metaDescriptionOf t, (readabilityOf env t).1, (readabilityOf env t).2⟩) := by
  simp [analyzeBody, h1, h2, h3, h4, bind, Except.bind, pure, Except.pure]

/-- Inversion: a successful analysis pins down every field. -/
lemma analyzeBody_ok_inv (env : Env) (t : Str) (r : AnalysisResult)
    (h : analyzeBody env t = .ok r) :
    ∃ f doc g kws, env.nlp = some f ∧ f t = .ok doc ∧ env.kw = some g ∧ g t = .ok kws ∧
      (kws.map Prod.fst).mapM (densityEntry (pySplitWs (pyLower t))) = .ok r.density ∧
      r.keywords = kws ∧ r.entities = entitiesOf doc ∧ r.nounChunks = chunksOf doc ∧
      r.metaTitle = metaTitleOf t ∧ r.metaDescription = metaDescriptionOf t := by
  cases hn : env.nlp with
  | none => rw [analyzeBody_nlp_none env t hn] at h; cases h
  | some f =>
    cases hd : f t with
    | error e => simp [analyzeBody, hn, hd, bind, Except.bind] at h
    | ok doc =>
      cases hk : env.kw with
      | none => simp [analyzeBody, hn, hd, hk, bind, Except.bind] at h
      | some g =>
        cases hw : g t with
        | error e => simp [analyzeBody, hn, hd, hk, hw, bind, Except.bind] at h
        | ok kws =>
          rw [analyzeBody_eq env t f doc g kws hn hd hk hw] at h
          cases hm : (kws.map Prod.fst).mapM (densityEntry (pySplitWs (pyLower t))) with
          | error e => rw [hm] at h; cases h
          | ok ds =>
              rw [hm] at h
              injection h with h
              subst h
              exact ⟨f, doc, g, kws, rfl, hd, rfl, hw, hm, rfl, rfl, rfl, rfl, rfl⟩

/-- Rounding never goes below an integer lower bound. -/
lemma pyRoundInt_nonneg (q : ℚ) (h : 0 ≤ q) : 0 ≤ pyRoundInt q := by
  have hf : (0:ℤ) ≤ ⌊q⌋ := Int.floor_nonneg.mpr h
  unfold pyRoundInt
  split_ifs <;> omega

/-- Rounding never exceeds an integer upper bound. -/
lemma pyRoundInt_le (q : ℚ) (B : ℤ) (h : q ≤ B) : pyRoundInt q ≤ B := by
  unfold pyRoundInt
  have hfloor : ⌊q⌋ ≤ B := by
    calc ⌊q⌋ ≤ ⌊(B:ℚ)⌋ := Int.floor_le_floor h
    _ = B := Int.floor_intCast B
  split_ifs with h1 h2
  · exact hfloor
  · have h1' : (1:ℚ)/2 ≤ q - ⌊q⌋ := le_of_not_lt h1
    have : (⌊q⌋ : ℚ) < B := by linarith
    have : ⌊q⌋ < B := by exact_mod_cast this
    omega
  · exact hfloor
  · have h1' : (1:ℚ)/2 ≤ q - ⌊q⌋ := le_of_not_lt h1
    have : (⌊q⌋ : ℚ) < B := by linarith
    have : ⌊q⌋ < B := by exact_mod_cast this
    omega

/-- `round(x, 2)` stays within `[0, 100]` on that interval. -/
lemma round2_mem_Icc (q : ℚ) (h0 : 0 ≤ q) (h1 : q ≤ 100) :
    0 ≤ round2 q ∧ round2 q ≤ 100 := by
  have hlo : 0 ≤ pyRoundInt (q * 100) := pyRoundInt_nonneg _ (by linarith)
  have hhi : pyRoundInt (q * 100) ≤ (10000 : ℤ) := by
    apply pyRoundInt_le
    push_cast
    linarith
  constructor
  · unfold round2
    positivity
  · unfold round2
    rw [div_le_iff₀ (by norm_num : (0:ℚ) < 100)]
    calc (pyRoundInt (q * 100) : ℚ) ≤ (10000 : ℤ) := by exact_mod_cast hhi
    _ = 100 * 100 := by norm_num

/-- `analyzeBody` errors somewhere when the KeyBERT model failed to load. -/
lemma analyzeBody_kw_none (env : Env) (t : Str) (h : env.kw = none) :
    ∃ e, analyzeBody env t = .error e := by
  cases hn : env.nlp with
  | none => exact ⟨_, analyzeBody_nlp_none env t hn⟩
  | some f =>
      cases hd : f t with
      | error e => exact ⟨e, by simp [analyzeBody, hn, hd, bind, Except.bind]⟩
      | ok doc =>
          exact ⟨"AttributeError: NoneType has no attribute extract_keywords".data,
            by simp [analyzeBody, hn, hd, h, bind, Except.bind]⟩

/-! ## Concrete oracle environments used by the witnesses -/

/-- A fixed spaCy document with duplicated and too-short spans. -/
def witnessDoc : NlpDoc :=
  ⟨["Cats".data, "Cats".data, "A".data],
   ["small mammals".data, "Big Cats".data, "cat".data]⟩

/-- Models loaded and succeeding: one keyword, readability raising. -/
def witnessEnv : Env :=
  ⟨some (fun _ => .ok witnessDoc),
   some (fun _ => .ok [("cats".data, (9:ℚ)/10)]),
   fun _ => .error "textstat".data,
   fun _ => .error "textstat".data⟩

/-- Neither model loaded. -/
def offlineEnv : Env :=
  ⟨none, none, fun _ => .error [], fun _ => .error []⟩

/-- Models loaded, extractor returning a keyword on whitespace-only input. -/
def zeroTokenEnv : Env :=
  ⟨some (fun _ => .ok ⟨[], []⟩),
   some (fun _ => .ok [("seo".data, 1)]),
   fun _ => .error "textstat".data,
   fun _ => .error "textstat".data⟩

/-! ## Claims -/

/-- C1: for every input text whose lower-cased whitespace tokenization is
non-empty, every density entry reported by `analyze_text` pairs its keyword
phrase with `round(100 × (exact token matches of the lower-cased phrase) /
(total token count), 2)`, a value in `[0, 100]`. -/
theorem C1_density_formula (env : Env) (t : Str)
    (hw : pySplitWs (pyLower t) ≠ []) (kw : Str) (d : ℚ)
    (hm : (kw, d) ∈ (analyze_text env t).density) :
    d = round2 (100 * ((pySplitWs (pyLower t)).count (pyLower kw) : ℚ) /
          ((pySplitWs (pyLower t)).length : ℚ)) ∧ 0 ≤ d ∧ d ≤ 100 := by
  cases hb : analyzeBody env t with
  | error e =>
      have hempty : analyze_text env t = emptyResult := by
        unfold analyze_text; rw [hb]
      rw [hempty] at hm
      simp [emptyResult] at hm
  | ok r =>
      have hr : analyze_text env t = r := by unfold analyze_text; rw [hb]
      rw [hr] at hm
      obtain ⟨f, doc, g, kws, -, -, -, -, hden, -, -, -, -, -⟩ :=
        analyzeBody_ok_inv env t r hb
      rw [densityList_ok _ hw] at hden
      injection hden with hden
      rw [← hden] at hm
      rcases List.mem_map.mp hm with ⟨k, hkmem, hkd⟩
      have hk : k = kw := congrArg Prod.fst hkd
      subst hk
      have hd : round2 (((pySplitWs (pyLower t)).count (pyLower k) : ℚ) /
          ((pySplitWs (pyLower t)).length : ℚ) * 100) = d := congrArg Prod.snd hkd
      have hlen : 0 < ((pySplitWs (pyLower t)).length : ℚ) := by
        have h1 : 0 < (pySplitWs (pyLower t)).length := List.length_pos.mpr hw
        exact_mod_cast h1
      have hcnt : ((pySplitWs (pyLower t)).count (pyLower k) : ℚ) ≤
          ((pySplitWs (pyLower t)).length : ℚ) := by
        exact_mod_cast List.count_le_length (pyLower k) (pySplitWs (pyLower t))
      have hq0 : 0 ≤ ((pySplitWs (pyLower t)).count (pyLower k) : ℚ) /
          ((pySplitWs (pyLower t)).length : ℚ) * 100 := by positivity
      have hq1 : ((pySplitWs (pyLower t)).count (pyLower k) : ℚ) /
          ((pySplitWs (pyLower t)).length : ℚ) * 100 ≤ 100 := by
        have hr1 : ((pySplitWs (pyLower t)).count (pyLower k) : ℚ) /
            ((pySplitWs (pyLower t)).length : ℚ) ≤ 1 :=
          div_le_one_of_le₀ hcnt (le_of_lt hlen)
        linarith
      obtain ⟨hlo, hhi⟩ := round2_mem_Icc _ hq0 hq1
      refine ⟨?_, ?_, ?_⟩
      · rw [← hd]; exact congrArg round2 (by ring)
      · rw [← hd]; exact hlo
      · rw [← hd]; exact hhi

/-- Witness for C1: on `"cats cats"` with the keyword `"cats"`, the density
entry exists and satisfies the formula and the bounds. -/
theorem C1_witness :
    pySplitWs (pyLower "cats cats".data) ≠ [] ∧
    ("cats".data,
      round2 (((pySplitWs (pyLower "cats cats".data)).count (pyLower "cats".data) : ℚ) /
        ((pySplitWs (pyLower "cats cats".data)).length : ℚ) * 100)) ∈
      (analyze_text witnessEnv "cats cats".data).density ∧
    0 ≤ round2 (((pySplitWs (pyLower "cats cats".data)).count (pyLower "cats".data) : ℚ) /
        ((pySplitWs (pyLower "cats cats".data)).length : ℚ) * 100) ∧
    round2 (((pySplitWs (pyLower "cats cats".data)).count (pyLower "cats".data) : ℚ) /
        ((pySplitWs (pyLower "cats cats".data)).length : ℚ) * 100) ≤ 100 := by
  have hw : pySplitWs (pyLower "cats cats".data) ≠ [] := by decide
  have hb := analyzeBody_eq witnessEnv "cats cats".data
    (fun _ => .ok witnessDoc) witnessDoc
    (fun _ => .ok [("cats".data, (9:ℚ)/10)]) [("cats".data, (9:ℚ)/10)] rfl rfl rfl rfl
  rw [densityList_ok _ hw] at hb
  have hb2 : analyzeBody witnessEnv "cats cats".data =
      .ok ⟨[("cats".data, (9:ℚ)/10)],
        ([("cats".data, (9:ℚ)/10)].map Prod.fst).map (fun k =>
          (k, round2 (((pySplitWs (pyLower "cats cats".data)).count (pyLower k) : ℚ) /
            ((pySplitWs (pyLower "cats cats".data)).length : ℚ) * 100))),
        entitiesOf witnessDoc, chunksOf witnessDoc,
        metaTitleOf "cats cats".data, metaDescriptionOf "cats cats".data,
        (readabilityOf witnessEnv "cats cats".data).1,
        (readabilityOf witnessEnv "cats cats".data).2⟩ := hb.trans rfl
  have hmem : ("cats".data,
      round2 (((pySplitWs (pyLower "cats cats".data)).count (pyLower "cats".data) : ℚ) /
        ((pySplitWs (pyLower "cats cats".data)).length : ℚ) * 100)) ∈
      (analyze_text witnessEnv "cats cats".data).density := by
    unfold analyze_text
    rw [hb2]
    simp only [List.map_cons, List.map_nil]
    exact List.mem_singleton.mpr rfl
  have h := C1_density_formula witnessEnv "cats cats".data hw "cats".data _ hmem
  exact ⟨hw, hmem, h.2.1, h.2.2⟩

/-- C2: on every successful analysis the meta title is the first
period-delimited sentence truncated to 60 characters with `"..."` appended,
hence at most 63 characters; it is `"N/A"` when the sentence split is empty
(which in fact never happens). -/
theorem C2_meta_title (env : Env) (t : Str) (r : AnalysisResult)
    (h : analyzeBody env t = .ok r) :
    r.metaTitle = (pySplitSep '.' t).headI.take 60 ++ "...".data ∧
    r.metaTitle.length ≤ 63 ∧
    (pySplitSep '.' t = [] → r.metaTitle = "N/A".data) := by
  obtain ⟨-, -, -, -, -, -, -, -, -, -, -, -, hmt, -⟩ := analyzeBody_ok_inv env t r h
  refine ⟨by rw [hmt, metaTitleOf_eq], ?_, ?_⟩
  · rw [hmt, metaTitleOf_eq, List.length_append, List.length_take]
    have h3 : ("...".data).length = 3 := rfl
    omega
  · intro hnil
    exact absurd hnil (pySplitSep_ne_nil '.' t)

/-- Witness for C2: a successful analysis of `"Hi. Bye"`. -/
theorem C2_witness :
    (analyze_text witnessEnv "Hi. Bye".data).metaTitle = "Hi...".data ∧
    (analyze_text witnessEnv "Hi. Bye".data).metaTitle.length ≤ 63 := by
  have hok : analyzeBody witnessEnv "Hi. Bye".data =
      .ok (analyze_text witnessEnv "Hi. Bye".data) := rfl
  have h := C2_meta_title witnessEnv "Hi. Bye".data _ hok
  exact ⟨h.1.trans (by decide), h.2.1⟩

/-- C5: on every successful analysis the meta description is the trimmed
text truncated to 160 characters with `"..."` appended unconditionally, so
its length is at most 163 and it is never empty. -/
theorem C5_meta_description (env : Env) (t : Str) (r : AnalysisResult)
    (h : analyzeBody env t = .ok r) :
    r.metaDescription = (pyStrip t).take 160 ++ "...".data ∧
    r.metaDescription.length ≤ 163 ∧ r.metaDescription ≠ [] := by
  obtain ⟨-, -, -, -, -, -, -, -, -, -, -, -, -, hmd⟩ := analyzeBody_ok_inv env t r h
  refine ⟨hmd, ?_, ?_⟩
  · rw [hmd]
    unfold metaDescriptionOf
    rw [List.length_append, List.length_take]
    have h3 : ("...".data).length = 3 := rfl
    omega
  · rw [hmd]
    unfold metaDescriptionOf
    simp

/-- Witness for C5: a successful analysis of a short text. -/
theorem C5_witness :
    (analyze_text witnessEnv "Hello".data).metaDescription = "Hello...".data ∧
    (analyze_text witnessEnv "Hello".data).metaDescription.length ≤ 163 ∧
    (analyze_text witnessEnv "Hello".data).metaDescription ≠ [] := by
  have hok : analyzeBody witnessEnv "Hello".data =
      .ok (analyze_text witnessEnv "Hello".data) := rfl
  have h := C5_meta_description witnessEnv "Hello".data _ hok
  exact ⟨h.1.trans (by decide), h.2.1, h.2.2⟩

/-- C3: `analyze_text` is total (it either returns the body's result or the
all-empty result — never a partial one), and whenever the annotator or the
keyword extractor is unavailable, or the body raises, it returns exactly the
all-empty/"N/A" result. -/
theorem C3_no_partial_result (env : Env) (t : Str) :
    (analyzeBody env t = .ok (analyze_text env t) ∨
      analyze_text env t = emptyResult) ∧
    ((env.nlp = none ∨ env.kw = none ∨ ∃ e, analyzeBody env t = .error e) →
      analyze_text env t = emptyResult) := by
  constructor
  · cases hb : analyzeBody env t with
    | ok r =>
        left
        have hr : analyze_text env t = r := by unfold analyze_text; rw [hb]
        rw [hr]
    | error e =>
        right
        unfold analyze_text
        rw [hb]
  · intro h
    rcases h with h | h | ⟨e, he⟩
    · unfold analyze_text
      rw [analyzeBody_nlp_none env t h]
    · rcases analyzeBody_kw_none env t h with ⟨e, he⟩
      unfold analyze_text
      rw [he]
    · unfold analyze_text
      rw [he]

/-- Witness for C3: with neither model loaded, the result is all-empty. -/
theorem C3_witness :
    analyze_text offlineEnv "Cats are pets.".data = emptyResult :=
  (C3_no_partial_result offlineEnv "Cats are pets.".data).2 (Or.inl rfl)

/-- C4: `is_valid_url` is true exactly when parsing yields a non-empty scheme
and a non-empty host, and the three example URLs behave as stated. -/
theorem C4_is_valid_url :
    (∀ url : Str, is_valid_url url = true ↔
      ∃ r, pyUrlparse url = some r ∧ r.scheme ≠ [] ∧ r.netloc ≠ []) ∧
    is_valid_url "https://example.com/a".data = true ∧
    is_valid_url "example.com".data = false ∧
    is_valid_url "ftp://".data = false := by
  refine ⟨?_, by decide, by decide, by decide⟩
  intro url
  unfold is_valid_url
  cases h : pyUrlparse url with
  | none => simp
  | some r =>
      simp only [decide_eq_true_eq, Option.some.injEq]
      constructor
      · rintro ⟨h1, h2⟩
        exact ⟨r, rfl, by simpa [List.isEmpty_iff] using h1,
          by simpa [List.isEmpty_iff] using h2⟩
      · rintro ⟨r', hr', h1, h2⟩
        subst hr'
        exact ⟨by simpa [List.isEmpty_iff] using h1, by simpa [List.isEmpty_iff] using h2⟩

/-- C6: on a successful analysis the entity list is duplicate-free and holds
exactly the entity spans with trimmed length over 1 (case preserved), and the
noun-phrase list is duplicate-free and holds exactly the lower-casings of the
chunks with trimmed length over 3. -/
theorem C6_dedup_filter (env : Env) (t : Str) (f : Str → Except Str NlpDoc)
    (doc : NlpDoc) (r : AnalysisResult) (h1 : env.nlp = some f)
    (h2 : f t = .ok doc) (h3 : analyzeBody env t = .ok r) :
    r.entities.Nodup ∧
    (∀ x, x ∈ r.entities ↔ x ∈ doc.ents ∧ 1 < (pyStrip x).length) ∧
    r.nounChunks.Nodup ∧
    (∀ x, x ∈ r.nounChunks ↔
      ∃ c, c ∈ doc.nounChunks ∧ 3 < (pyStrip c).length ∧ x = pyLower c) := by
  obtain ⟨f', doc', g, kws, hf', hd', -, -, -, -, hent, hchunk, -, -⟩ :=
    analyzeBody_ok_inv env t r h3
  rw [h1] at hf'
  injection hf' with hf'
  subst hf'
  rw [h2] at hd'
  injection hd' with hd'
  subst hd'
  refine ⟨?_, ?_, ?_, ?_⟩
  · rw [hent]; exact List.nodup_dedup _
  · intro x
    rw [hent]
    unfold entitiesOf
    rw [List.mem_dedup, List.mem_filter]
    simp
  · rw [hchunk]; exact List.nodup_dedup _
  · intro x
    rw [hchunk]
    unfold chunksOf
    rw [List.mem_dedup, List.mem_map]
    constructor
    · rintro ⟨c, hc, rfl⟩
      rw [List.mem_filter] at hc
      exact ⟨c, hc.1, by simpa using hc.2, rfl⟩
    · rintro ⟨c, hc1, hc2, rfl⟩
      exact ⟨c, List.mem_filter.mpr ⟨hc1, by simpa using hc2⟩, rfl⟩

/-- Witness for C6: the duplicated `"Cats"` span appears once, short spans
are dropped, and membership matches the filter. -/
theorem C6_witness :
    (analyze_text witnessEnv "cats".data).entities.Nodup ∧
    ("Cats".data ∈ (analyze_text witnessEnv "cats".data).entities ↔
      "Cats".data ∈ witnessDoc.ents ∧ 1 < (pyStrip "Cats".data).length) ∧
    (analyze_text witnessEnv "cats".data).nounChunks.Nodup := by
  have hok : analyzeBody witnessEnv "cats".data =
      .ok (analyze_text witnessEnv "cats".data) := rfl
  have h := C6_dedup_filter witnessEnv "cats".data
    (fun _ => .ok witnessDoc) witnessDoc _ rfl rfl hok
  exact ⟨h.1, h.2.1 "Cats".data, h.2.2.1⟩

/-- A paragraph of a genuinely fetched page that happens to start with
`"ERROR"`; longer than 40 characters, so it survives the extractor's filter,
and shorter than 100 characters. -/
def errorParagraph : Str :=
  "ERROR free shipping deals on all cat food orders".data

/-- C7 counterexample: the claim says every successful fetch whose joined
text is under 100 characters is reported as insufficient content, but a
genuine page whose single long paragraph starts with `"ERROR"` is classified
as a fetch failure instead. -/
theorem C7_counterexample :
    extract_text_from_url (.ok [errorParagraph]) = errorParagraph ∧
    (extract_text_from_url (.ok [errorParagraph])).length < 100 ∧
    tab1Classify (extract_text_from_url (.ok [errorParagraph])) =
      FetchOutcome.fetchFailure ∧
    FetchOutcome.fetchFailure ≠ FetchOutcome.insufficient := by
  refine ⟨by decide, by decide, by decide, by decide⟩

/-- C7 (amended): a successful fetch yields the over-40-character paragraphs
joined by newlines, and a joined text under 100 characters that does not
start with `"ERROR"` is reported as insufficient content — an outcome
distinct from fetch failure; three 20-character paragraphs all fall to the
filter, so the page is reported as insufficient content. -/
theorem C7_url_branch :
    (∀ paras : List Str, extract_text_from_url (.ok paras) =
        List.intercalate ['\n'] (paras.filter (fun p => 40 < p.length))) ∧
    (∀ s : Str, "ERROR".data.isPrefixOf s = false → s.length < 100 →
        tab1Classify s = FetchOutcome.insufficient) ∧
    FetchOutcome.insufficient ≠ FetchOutcome.fetchFailure ∧
    tab1Classify (extract_text_from_url (.ok
        [List.replicate 20 'a', List.replicate 20 'b', List.replicate 20 'c'])) =
      FetchOutcome.insufficient := by
  refine ⟨fun paras => rfl, ?_, by decide, by decide⟩
  intro s h1 h2
  simp [tab1Classify, h1, h2]

/-- Witness for C7: the empty fetched string is classified as insufficient. -/
theorem C7_witness : tab1Classify [] = FetchOutcome.insufficient :=
  C7_url_branch.2.1 [] (by decide) (by decide)

/-- C8: `extract_text_from_file` dispatches on the extension — `.txt` decodes
as UTF-8, `.docx` joins its paragraphs with newlines, any other name (such as
`notes.pdf`) yields the empty string, and a decode/parse exception in either
branch also yields the empty string instead of propagating. -/
theorem C8_file_dispatch :
    (∀ (f : UploadedFile) (s : Str), ".txt".data.isSuffixOf f.name = true →
        f.decodeUtf8 = .ok s → extract_text_from_file f = s) ∧
    (∀ (f : UploadedFile) (ps : List Str), ".txt".data.isSuffixOf f.name = false →
        ".docx".data.isSuffixOf f.name = true → f.docxParas = .ok ps →
        extract_text_from_file f = List.intercalate ['\n'] ps) ∧
    (∀ f : UploadedFile, ".txt".data.isSuffixOf f.name = false →
        ".docx".data.isSuffixOf f.name = false → extract_text_from_file f = []) ∧
    (∀ (d : Except Str Str) (ps : Except Str (List Str)),
        extract_text_from_file ⟨"notes.pdf".data, d, ps⟩ = []) ∧
    (∀ (f : UploadedFile) (e : Str), ".txt".data.isSuffixOf f.name = true →
        f.decodeUtf8 = .error e → extract_text_from_file f = []) ∧
    (∀ (f : UploadedFile) (e : Str), ".txt".data.isSuffixOf f.name = false →
        ".docx".data.isSuffixOf f.name = true → f.docxParas = .error e →
        extract_text_from_file f = []) := by
  refine ⟨?_, ?_, ?_, ?_, ?_, ?_⟩
  · intro f s h1 h2
    simp [extract_text_from_file, h1, h2]
  · intro f ps h1 h2 h3
    simp [extract_text_from_file, h1, h2, h3]
  · intro f h1 h2
    simp [extract_text_from_file, h1, h2]
  · intro d ps
    have h1 : ".txt".data.isSuffixOf "notes.pdf".data = false := by decide
    have h2 : ".docx".data.isSuffixOf "notes.pdf".data = false := by decide
    simp [extract_text_from_file, h1, h2]
  · intro f e h1 h2
    simp [extract_text_from_file, h1, h2]
  · intro f e h1 h2 h3
    simp [extract_text_from_file, h1, h2, h3]

/-- Witness for C8: a `.pdf` upload and a `.txt` upload whose decode raises
both yield the empty string. -/
theorem C8_witness :
    extract_text_from_file ⟨"notes.pdf".data, .ok "hello".data, .ok []⟩ = [] ∧
    extract_text_from_file ⟨"a.txt".data, .error "UnicodeDecodeError".data, .ok []⟩ = [] :=
  ⟨C8_file_dispatch.2.2.2.1 (.ok "hello".data) (.ok []),
   C8_file_dispatch.2.2.2.2.1 ⟨"a.txt".data, .error "UnicodeDecodeError".data, .ok []⟩
     "UnicodeDecodeError".data (by decide) rfl⟩

/-- C9: when the lower-cased whitespace split has zero tokens but the models
succeed with at least one keyword, the density division raises
`ZeroDivisionError`, the outer handler absorbs it, and `analyze_text`
returns the all-empty result instead of raising. -/
theorem C9_zero_tokens (env : Env) (t : Str) (f : Str → Except Str NlpDoc)
    (doc : NlpDoc) (g : Str → Except Str (List (Str × ℚ))) (kws : List (Str × ℚ))
    (h1 : env.nlp = some f) (h2 : f t = .ok doc) (h3 : env.kw = some g)
    (h4 : g t = .ok kws) (h5 : kws ≠ []) (h6 : pySplitWs (pyLower t) = []) :
    analyzeBody env t = .error "ZeroDivisionError".data ∧
    analyze_text env t = emptyResult := by
  have hb := analyzeBody_eq env t f doc g kws h1 h2 h3 h4
  rw [h6] at hb
  have hmap : kws.map Prod.fst ≠ [] := by simpa using h5
  rw [densityList_zero _ hmap] at hb
  have hb2 : analyzeBody env t = .error "ZeroDivisionError".data := hb.trans rfl
  refine ⟨hb2, ?_⟩
  unfold analyze_text
  rw [hb2]

/-- Witness for C9: whitespace-only input with one extracted keyword. -/
theorem C9_witness : analyze_text zeroTokenEnv "   ".data = emptyResult :=
  (C9_zero_tokens zeroTokenEnv "   ".data (fun _ => .ok ⟨[], []⟩) ⟨[], []⟩
    (fun _ => .ok [("seo".data, 1)]) [("seo".data, 1)]
    rfl rfl rfl rfl (by decide) (by decide)).2

/-- C10: a fetch failure is encoded in-band as `"ERROR: " + message`; the
single-content flow classifies a string as a fetch failure exactly when it
starts with `"ERROR"` (so a genuinely fetched page beginning with `"ERROR"`
is misreported), while the competitor flow passes the raw extraction result
— failure string included — straight to `analyze_text`. -/
theorem C10_in_band_error :
    (∀ e : Str, extract_text_from_url (.error e) = "ERROR: ".data ++ e) ∧
    (∀ s : Str, tab1Classify s = FetchOutcome.fetchFailure ↔
        "ERROR".data.isPrefixOf s = true) ∧
    tab1Classify (extract_text_from_url (.ok [errorParagraph])) =
      FetchOutcome.fetchFailure ∧
    (∀ (env : Env) (fetch1 fetch2 : FetchResult),
        compareCompetitors env fetch1 fetch2 =
          (analyze_text env (extract_text_from_url fetch1),
           analyze_text env (extract_text_from_url fetch2))) ∧
    (∀ (env : Env) (e : Str) (fetch2 : FetchResult),
        (compareCompetitors env (.error e) fetch2).1 =
          analyze_text env ("ERROR: ".data ++ e)) := by
  refine ⟨fun e => rfl, ?_, by decide, fun env f1 f2 => rfl, fun env e f2 => rfl⟩
  intro s
  unfold tab1Classify
  by_cases h : "ERROR".data.isPrefixOf s = true
  · simp [h]
  · simp only [h]
    rw [if_neg (by simp [h])]
    split_ifs <;> simp [h]
